import Mathlib

/-!
Shallow embedding of the state-based load-profile simulation systems
(battery, combined-heat-and-power plant, heat storage) and verification of
properties of their action/feasibility/state-transition behaviour.

Conventions of the embedding:
* Python floats are modelled as rationals; the arithmetic of the source is
  translated literally.
* A Python method that mutates `self` is modelled as a function from the
  state to the pair of the new state and the returned value.
* A call that raises an exception returns `none` in the place of the
  returned value, paired with the state as it stands at the raise point
  (mutations performed before the raise are kept, as in Python, where the
  object keeps all writes done before the exception propagates).
-/

namespace LoadProfileSim

/-- An action of a system catalog: index plus electrical and thermal power
in kW (`Action.__init__` defaults both powers to 0). -/
structure Action where
  idx : Int
  el_power : ℚ := 0
  th_power : ℚ := 0
  deriving DecidableEq, Repr, Inhabited

/-- The interaction of a system with its environment over one tick:
average electrical and thermal power in kW. -/
structure SystemEnvironmentInteraction where
  el_power : ℚ := 0
  th_power : ℚ := 0
  deriving DecidableEq, Repr, Inhabited

/-- `SystemEnvironmentInteraction.__mul__`: the source multiplies
`self.el_power` and `self.th_power` in place and falls off the end of the
method, so the value of the expression `i * k` is Python `None`.
First component: the object after the call; second component: the value of
the multiplication expression (`none` models Python `None`). -/
def SystemEnvironmentInteraction.mul (i : SystemEnvironmentInteraction) (other : ℚ) :
    SystemEnvironmentInteraction × Option SystemEnvironmentInteraction :=
  ({ el_power := i.el_power * other, th_power := i.th_power * other }, none)

/-- `__rmul__ = __mul__`: `k * i` runs the same in-place code. -/
def SystemEnvironmentInteraction.rmul (i : SystemEnvironmentInteraction) (other : ℚ) :
    SystemEnvironmentInteraction × Option SystemEnvironmentInteraction :=
  SystemEnvironmentInteraction.mul i other

/-! ## Battery -/

/-- Python `round` to the nearest integer, halves to even. -/
def pyRoundInt (x : ℚ) : ℤ :=
  if x - ⌊x⌋ < 1 / 2 then ⌊x⌋
  else if x - ⌊x⌋ > 1 / 2 then ⌊x⌋ + 1
  else if ⌊x⌋ % 2 = 0 then ⌊x⌋ else ⌊x⌋ + 1

/-- Python `round(x, d)` for `d ≥ 0` decimals. -/
def pyRound (x : ℚ) (d : ℕ) : ℚ :=
  (pyRoundInt (x * 10 ^ d) : ℚ) / 10 ^ d

/-- The action catalog built by `Battery.__init__`: the dictionary keys are
exactly `0, …, 2·granularity`, so the catalog is represented positionally as
a list whose entry at position `j` is the action with idx `j`.
The source registers idx `granularity` with power 0, idx `i < granularity`
with power `round(max_power·(i/granularity − 1), decimals)` and idx
`granularity+1+i` with power `round(max_power·(i+1)/granularity, decimals)`.
`decimals` is computed in the source as
`max(0, ceil(log10(granularity) − log10(max_power)))` using floating-point
logarithms; it is taken as a parameter here and instantiated with its value
for each concrete battery considered. -/
def batteryActionCatalog (max_power : ℚ) (granularity : ℕ) (decimals : ℕ) : List Action :=
  (List.range (2 * granularity + 1)).map fun j =>
    if j = granularity then { idx := j, el_power := 0 }
    else if j < granularity then
      { idx := j, el_power := pyRound (max_power * ((j : ℚ) / (granularity : ℚ) - 1)) decimals }
    else
      { idx := j,
        el_power := pyRound (max_power * (((j : ℚ) - (granularity : ℚ)) / (granularity : ℚ))) decimals }

/-- The state of a `Battery`: catalog plus physical parameters.
`capacity`, `charge` and `absolute_loss_per_tick` are in Ws. -/
structure BatteryState where
  actions : List Action
  capacity : ℚ
  charging_efficiency : ℚ
  discharging_efficiency : ℚ
  relative_loss_per_tick : ℚ
  absolute_loss_per_tick : ℚ
  charge : ℚ
  deriving DecidableEq, Repr

/-- `Battery.__init__`: capacity and initial charge are given in kWh and
stored in Ws (factor 1000·60·60). -/
def Battery.init (capacity max_power : ℚ) (granularity : ℕ)
    (initial_charge charging_efficiency discharging_efficiency relative_loss absolute_loss : ℚ)
    (decimals : ℕ) : BatteryState :=
  { actions := batteryActionCatalog max_power granularity decimals
    capacity := capacity * 1000 * 60 * 60
    charging_efficiency := charging_efficiency
    discharging_efficiency := discharging_efficiency
    relative_loss_per_tick := relative_loss
    absolute_loss_per_tick := absolute_loss
    charge := initial_charge * 1000 * 60 * 60 }

/-- Dictionary lookup `self.actions[idx]` for a battery: the keys are the
positions `0, …, len−1`; any other idx raises KeyError (`none`). -/
def BatteryState.lookupAction (s : BatteryState) (idx : ℤ) : Option Action :=
  if 0 ≤ idx then s.actions.get? idx.toNat else none

/-- `Battery.get_feasible_action_idxs`: computes the continuous feasible
power band in W and collects, iterating `idx` over `range(0, len(actions))`,
every idx whose action power (kW→W) lies inside the band inclusively. -/
def BatteryState.get_feasible_action_idxs (s : BatteryState) (delta_time : ℚ) : List ℕ :=
  let max_power := (s.capacity * (1 + s.relative_loss_per_tick / 2) -
      s.charge * (1 - s.relative_loss_per_tick / 2) + s.absolute_loss_per_tick) /
      s.charging_efficiency / delta_time
  let min_power := (0 - s.charge * (1 - s.relative_loss_per_tick / 2) +
      s.absolute_loss_per_tick) * s.discharging_efficiency / delta_time
  (List.range s.actions.length).filter fun idx =>
    decide ((s.actions.getD idx default).el_power * 1000 ≤ max_power ∧
      min_power ≤ (s.actions.getD idx default).el_power * 1000)

/-- `Battery.state_transition`.
* `action_idx = none` (Python `None`): power is 0, the symmetric-loss
  update is applied to `charge` with `delta_c = 0`, and then the return
  statement evaluates `self.actions[action_idx]` with `action_idx = None`,
  which raises KeyError — after the charge mutation.
* `action_idx = some i` with `i` unregistered: the lookup
  `self.actions[action_idx].el_power` raises KeyError before any mutation.
* otherwise: charging/discharging efficiency applied by the sign of the
  power, symmetric-loss charge update, interaction with the nominal action
  powers returned. -/
def BatteryState.state_transition (s : BatteryState) (delta_time : ℚ)
    (action_idx : Option ℤ) : BatteryState × Option SystemEnvironmentInteraction :=
  match action_idx with
  | none =>
    ({ s with charge := (0 + s.charge * (1 - s.relative_loss_per_tick / 2) -
        s.absolute_loss_per_tick) / (1 + s.relative_loss_per_tick / 2) }, none)
  | some i =>
    match s.lookupAction i with
    | none => (s, none)
    | some a =>
      let power := a.el_power * 1000
      let delta_c :=
        if power > 0 then power * delta_time * s.charging_efficiency
        else if power < 0 then power * delta_time / s.discharging_efficiency
        else 0
      ({ s with charge := (delta_c + s.charge * (1 - s.relative_loss_per_tick / 2) -
          s.absolute_loss_per_tick) / (1 + s.relative_loss_per_tick / 2) },
       some { el_power := a.el_power, th_power := a.th_power })

/-! ## Combined heat and power plant -/

/-- Dictionary indexing `d[k]` for an association list in insertion order
with distinct keys: `some` the stored value, `none` for KeyError. -/
def dictLookup {α : Type} (l : List (ℤ × α)) (k : ℤ) : Option α :=
  match l with
  | [] => none
  | p :: rest => if p.1 = k then some p.2 else dictLookup rest k

/-- A CHP action: electrical and thermal power in kW plus the dwell-time
bounds (in seconds) that CHP actions are required to carry. -/
structure CHPAction where
  el_power : ℚ
  th_power : ℚ
  min_staying_time : ℚ
  max_staying_time : ℚ
  deriving DecidableEq, Repr, Inhabited

/-- The state of a `CHPPlant`. The action dictionary is an association list
(idx, action) in dict insertion order with distinct keys. The ramp-up rates
are stored negated by the constructor; `el_power`/`th_power` are the actual
delivered powers, which lag the mode's nominal powers during ramping. -/
structure CHPState where
  actions : List (ℤ × CHPAction)
  mode : ℤ
  staying_time : ℚ
  el_power : ℚ
  th_power : ℚ
  el_ramp_up_rate : ℚ
  el_ramp_down_rate : ℚ
  th_ramp_up_rate : ℚ
  th_ramp_down_rate : ℚ
  deriving DecidableEq, Repr

/-- `CHPPlant.__init__`: stores the action dictionary, sets the actual
powers to the initial mode's nominal powers (`none` when the initial mode
is not a key, modelling the KeyError) and negates the ramp-up rates. -/
def CHPPlant.init (actions : List (ℤ × CHPAction)) (initial_mode : ℤ)
    (initial_staying_time el_ramp_up_rate el_ramp_down_rate th_ramp_up_rate th_ramp_down_rate : ℚ) :
    Option CHPState :=
  match dictLookup actions initial_mode with
  | none => none
  | some a =>
    some { actions := actions
           mode := initial_mode
           staying_time := initial_staying_time
           el_power := a.el_power
           th_power := a.th_power
           el_ramp_up_rate := -el_ramp_up_rate
           el_ramp_down_rate := el_ramp_down_rate
           th_ramp_up_rate := -th_ramp_up_rate
           th_ramp_down_rate := th_ramp_down_rate }

/-- `CHPPlant.get_feasible_action_idxs`.
If the current mode has not yet been active for its `min_staying_time`, the
returned list is the singleton of the current mode. Otherwise the source
iterates the dictionary and appends `idx` in the `if` branch
(`idx == self.mode and staying_time + delta_time <= max_staying_time`) and
appends `idx` in the `else` branch as well, so every key is appended
unconditionally; the conditional is kept verbatim below. `none` models the
KeyError when the current mode is not a key of the dictionary. -/
def CHPState.get_feasible_action_idxs (s : CHPState) (delta_time : ℚ) : Option (List ℤ) :=
  match dictLookup s.actions s.mode with
  | none => none
  | some cur =>
    if cur.min_staying_time > s.staying_time then
      some [s.mode]
    else
      some (s.actions.foldl (fun acc p =>
        if p.1 = s.mode ∧ s.staying_time + delta_time ≤ p.2.max_staying_time then
          acc ++ [p.1]
        else
          acc ++ [p.1]) [])

/-- `CHPPlant.state_transition`.
First the mode is updated (`mode := action_idx`, `staying_time := 0`) when
`action_idx` differs from the current mode; only then is
`self.actions[self.mode]` looked up, so an unregistered `action_idx` raises
KeyError (`none`) after those writes. For each channel the actual power is
ramped toward the mode's nominal power at the stored signed rate and a
trapezoidal total energy is computed; for the electrical channel the source
then unconditionally overwrites `total_energy = delta_time * self.el_power`
(the trapezoid is kept here as a discarded binding to mirror the source),
while the thermal channel keeps the trapezoid and uses
`delta_time * th_power` only in the already-at-target case.
`staying_time` is always incremented by `delta_time`. -/
def CHPState.state_transition (s : CHPState) (delta_time : ℚ) (action_idx : ℤ) :
    CHPState × Option SystemEnvironmentInteraction :=
  let s1 := if action_idx ≠ s.mode then { s with mode := action_idx, staying_time := 0 } else s
  match dictLookup s1.actions s1.mode with
  | none => (s1, none)
  | some a =>
    let initial_el := s1.el_power
    let rem_el := a.el_power - s1.el_power
    let new_el :=
      if rem_el < 0 then max a.el_power (initial_el + s1.el_ramp_up_rate * delta_time)
      else if rem_el > 0 then min a.el_power (initial_el + s1.el_ramp_down_rate * delta_time)
      else s1.el_power
    let _discarded_el_trapezoid :=
      if rem_el < 0 then
        let t := rem_el / s1.el_ramp_up_rate
        min delta_time t * (initial_el + new_el) / 2 + max 0 (delta_time - t) * new_el
      else if rem_el > 0 then
        let t := rem_el / s1.el_ramp_down_rate
        min delta_time t * (initial_el + new_el) / 2 + max 0 (delta_time - t) * new_el
      else 0
    let el_total_energy := delta_time * new_el
    let initial_th := s1.th_power
    let rem_th := a.th_power - s1.th_power
    let new_th :=
      if rem_th < 0 then max a.th_power (initial_th + s1.th_ramp_up_rate * delta_time)
      else if rem_th > 0 then min a.th_power (initial_th + s1.th_ramp_down_rate * delta_time)
      else s1.th_power
    let th_total_energy :=
      if rem_th < 0 then
        let t := rem_th / s1.th_ramp_up_rate
        min delta_time t * (initial_th + new_th) / 2 + max 0 (delta_time - t) * new_th
      else if rem_th > 0 then
        let t := rem_th / s1.th_ramp_down_rate
        min delta_time t * (initial_th + new_th) / 2 + max 0 (delta_time - t) * new_th
      else delta_time * s1.th_power
    ({ s1 with
        el_power := new_el
        th_power := new_th
        staying_time := s1.staying_time + delta_time },
     some { el_power := el_total_energy / delta_time, th_power := th_total_energy / delta_time })

/-! ## Heat storage -/

/-- The state of a `HeatStorage`: capacity, charge and
`absolute_loss_per_tick` in Ws; no action catalog of its own. -/
structure HeatStorageState where
  capacity : ℚ
  charging_efficiency : ℚ
  discharging_efficiency : ℚ
  relative_loss_per_tick : ℚ
  absolute_loss_per_tick : ℚ
  charge : ℚ
  deriving DecidableEq, Repr

/-- `HeatStorage.__init__` (capacity and initial charge in kWh). -/
def HeatStorage.init (capacity initial_charge charging_efficiency discharging_efficiency
    relative_loss absolute_loss : ℚ) : HeatStorageState :=
  { capacity := capacity * 1000 * 60 * 60
    charging_efficiency := charging_efficiency
    discharging_efficiency := discharging_efficiency
    relative_loss_per_tick := relative_loss
    absolute_loss_per_tick := absolute_loss
    charge := initial_charge * 1000 * 60 * 60 }

/-- The `delta_c` block of `HeatStorage.state_transition`: the accepted
energy flow converted to a charge delta by the sign-dependent efficiency. -/
def heatStorageDeltaC (s : HeatStorageState) (energy_flow : ℚ) : ℚ :=
  if energy_flow > 0 then energy_flow * s.charging_efficiency
  else if energy_flow < 0 then energy_flow / s.discharging_efficiency
  else 0

/-- `HeatStorage.state_transition` (the `action_idx` parameter is unused by
the source). The negative of the supplied thermal power times the tick is
the requested energy in Ws; it is clipped against the tick's storable
(`energy > 0`) or extractable (`energy < 0`) bound, the clipped remainder
`diff` is returned as the thermal power of the new interaction with the
original sign restored, and the accepted flow is applied to the charge via
the symmetric-loss update. When `energy = 0` both `energy_flow` and `diff`
keep their initializers (`0` and `energy = 0`). -/
def HeatStorageState.state_transition (s : HeatStorageState) (delta_time : ℚ)
    (environment_interaction : SystemEnvironmentInteraction) :
    HeatStorageState × SystemEnvironmentInteraction :=
  let energy := -environment_interaction.th_power * delta_time * 1000
  let r := s.relative_loss_per_tick
  let ed : ℚ × ℚ :=
    if energy > 0 then
      let max_energy := (s.capacity * (1 + r / 2) - s.charge * (1 - r / 2) +
        s.absolute_loss_per_tick) / s.charging_efficiency
      let diff := max 0 (energy - max_energy)
      (energy - diff, diff)
    else if energy < 0 then
      let min_energy := (0 - s.charge * (1 - r / 2) + s.absolute_loss_per_tick) *
        s.discharging_efficiency
      let diff := min 0 (energy - min_energy)
      (energy - diff, diff)
    else (0, energy)
  let energy_flow := ed.1
  let diff := ed.2
  let out : SystemEnvironmentInteraction :=
    { el_power := environment_interaction.el_power, th_power := -diff / 1000 / delta_time }
  let delta_c := heatStorageDeltaC s energy_flow
  ({ s with charge := (delta_c + s.charge * (1 - r / 2) - s.absolute_loss_per_tick) /
      (1 + r / 2) }, out)

/-- `HeatStorage.filter_actions`: keeps, in iteration order, the candidate
actions of another system that survive the state-of-charge guards and the
feasible power band; reads the storage state only (no mutation). The guards
translate the source's `continue` statements: below `min_charge` drop
`thermal_power ≤ 0`, at exactly `min_charge` drop `thermal_power < 0`, at
or above `max_charge` drop `thermal_power > 0`; then keep the action iff
its projected power (kW→W) lies inside `[min_power, max_power]`. -/
def HeatStorageState.filter_actions (s : HeatStorageState) (f : Action → ℚ)
    (action_map : List (ℤ × Action)) (delta_time min_soc max_soc : ℚ) : List (ℤ × Action) :=
  let min_charge := s.capacity * min_soc
  let max_charge := s.capacity * max_soc
  let max_power := (s.capacity * (1 + s.relative_loss_per_tick / 2) -
      s.charge * (1 - s.relative_loss_per_tick / 2) + s.absolute_loss_per_tick) /
      s.charging_efficiency / delta_time
  let min_power := (0 - s.charge * (1 - s.relative_loss_per_tick / 2) +
      s.absolute_loss_per_tick) * s.discharging_efficiency / delta_time
  action_map.filter fun p =>
    let thermal_power := f p.2
    if s.charge < min_charge ∧ thermal_power ≤ 0 then false
    else if s.charge = min_charge ∧ thermal_power < 0 then false
    else if s.charge ≥ max_charge ∧ thermal_power > 0 then false
    else decide (thermal_power * 1000 ≤ max_power ∧ min_power ≤ thermal_power * 1000)

/-! ## Helper lemmas -/

/-- A battery tick with an unregistered action idx raises before mutating. -/
theorem battery_state_transition_lookup_none (b : BatteryState) (dt : ℚ) (i : ℤ)
    (hb : b.lookupAction i = none) : b.state_transition dt (some i) = (b, none) := by
  simp [BatteryState.state_transition, hb]

/-- A CHP tick with an unregistered action idx raises at the catalog lookup,
after writing `mode`/`staying_time` when the idx differs from the mode. -/
theorem chp_state_transition_lookup_none (c : CHPState) (dt : ℚ) (i : ℤ)
    (hc : dictLookup c.actions i = none) :
    c.state_transition dt i =
      ((if i = c.mode then c else { c with mode := i, staying_time := 0 }), none) := by
  by_cases h : i = c.mode
  · subst h; simp [CHPState.state_transition, hc]
  · simp [CHPState.state_transition, h, hc]

/-- `round(-5.0, 0) = -5.0`. -/
theorem pyRound_neg_five : pyRound (-5) 0 = -5 := by
  simp only [pyRound, pyRoundInt]
  norm_num

/-- `round(5.0, 0) = 5.0`. -/
theorem pyRound_five : pyRound 5 0 = 5 := by
  simp only [pyRound, pyRoundInt]
  norm_num

/-! ## Concrete instances -/

/-- The battery of the concrete scenario: capacity 10 kWh, max power 5 kW,
granularity 1, initial charge 5 kWh, both efficiencies 1, no losses.
For these parameters the source computes
`decimals = max(0, ceil(log10(1) − log10(5))) = max(0, ceil(−0.698…)) = 0`. -/
def batteryC8 : BatteryState := Battery.init 10 5 1 5 1 1 0 0 0

/-- A battery with relative loss 1/2 per tick (and otherwise the scenario
parameters), used to make the leakage applied by an idle tick visible. -/
def batteryC3 : BatteryState := Battery.init 10 5 1 5 1 1 (1/2) 0 0

/-- The CHP plant of the concrete scenario: mode 0 (idle, 0 kW / 0 kW) and
mode 1 (full, 10 kW / 20 kW, `min_staying_time` 600); the unbounded
`max_staying_time` of the scenario is represented by 10^9 s (the value is
never read by `state_transition`). All four ramp rates are 1 kW/s. -/
def chpC4actions : List (ℤ × CHPAction) :=
  [(0, { el_power := 0, th_power := 0, min_staying_time := 0, max_staying_time := 10 ^ 9 }),
   (1, { el_power := 10, th_power := 20, min_staying_time := 600, max_staying_time := 10 ^ 9 })]

/-- The state the constructor builds for the scenario plant: starting in
idle with actual powers 0, ramp-up rates stored negated. -/
def chpC4 : CHPState :=
  { actions := chpC4actions
    mode := 0
    staying_time := 0
    el_power := 0
    th_power := 0
    el_ramp_up_rate := -1
    el_ramp_down_rate := 1
    th_ramp_up_rate := -1
    th_ramp_down_rate := 1 }

/-- The scenario plant is what `CHPPlant.__init__` produces. -/
theorem chpC4_init : CHPPlant.init chpC4actions 0 0 1 1 1 1 = some chpC4 := rfl

/-- The scenario plant after 42 s in idle mode. -/
def chpC2 : CHPState := { chpC4 with staying_time := 42 }

/-- A plant whose current mode (idle, `max_staying_time` 600 s) has its
minimum dwell time satisfied and its maximum dwell time about to expire. -/
def chpC1 : CHPState :=
  { chpC4 with
      actions :=
        [(0, { el_power := 0, th_power := 0, min_staying_time := 0, max_staying_time := 600 }),
         (1, { el_power := 10, th_power := 20, min_staying_time := 0, max_staying_time := 10 ^ 9 })]
      staying_time := 600 }

/-! ## Claim theorems -/

/-- C1. The claim states that once the minimum dwell time of the current
mode is satisfied, the current mode idx is feasible iff
`staying_time + delta_time ≤ max_staying_time`. The source appends the idx
in both branches of its conditional, so the current mode is returned even
when its maximum dwell time is exceeded: for `chpC1` (current mode 0,
`staying_time = 600`, `max_staying_time = 600`, minimum dwell satisfied)
the call with `delta_time = 100` returns both idxs although
`600 + 100 > 600`. -/
theorem chp_feasible_includes_expired_mode :
    chpC1.get_feasible_action_idxs 100 = some [0, 1] ∧
    chpC1.mode = 0 ∧ chpC1.staying_time = 600 ∧
    (dictLookup chpC1.actions 0).map CHPAction.max_staying_time = some 600 ∧
    ¬ ((600 : ℚ) + 100 ≤ 600) := by
  norm_num [chpC1, chpC4, CHPState.get_feasible_action_idxs, dictLookup]

/-- C2 counterexample. `state_transition` on the plant `chpC2` with the
unregistered action idx 99 fails (no interaction is produced), yet the
post-call state differs from the pre-call state: `mode` has been set to 99
and `staying_time` reset to 0, refuting the atomic-per-call claim at this
concrete input. -/
theorem chp_transition_mutates_before_failure :
    (chpC2.state_transition 10 99).2 = none ∧
    chpC2.mode = 0 ∧ chpC2.staying_time = 42 ∧
    (chpC2.state_transition 10 99).1.mode = 99 ∧
    (chpC2.state_transition 10 99).1.staying_time = 0 := by
  have hc : dictLookup chpC2.actions (99 : ℤ) = none := by
    norm_num [chpC2, chpC4, chpC4actions, dictLookup]
  rw [chp_state_transition_lookup_none chpC2 10 99 hc]
  norm_num [chpC2, chpC4]

/-- C2 amended. A Battery fails on an unregistered action idx before any
mutation, returning with its state intact; a CHPPlant also fails without
producing an interaction, but when the unregistered idx differs from the
current mode it has already written `mode := action_idx` and
`staying_time := 0` by the time the lookup fails (all other fields are
unchanged). -/
theorem state_transition_unregistered_amended (b : BatteryState) (c : CHPState)
    (dt : ℚ) (ib ic : ℤ)
    (hb : b.lookupAction ib = none) (hc : dictLookup c.actions ic = none) :
    b.state_transition dt (some ib) = (b, none) ∧
    (c.state_transition dt ic).2 = none ∧
    (c.state_transition dt ic).1 =
      (if ic = c.mode then c else { c with mode := ic, staying_time := 0 }) := by
  refine ⟨battery_state_transition_lookup_none b dt ib hb, ?_, ?_⟩ <;>
    rw [chp_state_transition_lookup_none c dt ic hc]

/-- C2 witness: the amended statement instantiated at the scenario systems
and the unregistered idx 99. -/
theorem state_transition_unregistered_amended_witness :
    batteryC8.state_transition 10 (some 99) = (batteryC8, none) ∧
    (chpC2.state_transition 10 99).2 = none ∧
    (chpC2.state_transition 10 99).1 =
      (if (99 : ℤ) = chpC2.mode then chpC2 else { chpC2 with mode := 99, staying_time := 0 }) :=
  state_transition_unregistered_amended batteryC8 chpC2 10 99 99
    (by norm_num [batteryC8, Battery.init, batteryActionCatalog, BatteryState.lookupAction,
      List.get?_eq_none])
    (by norm_num [chpC2, chpC4, chpC4actions, dictLookup])

/-- C3. The claim states that a Battery tick with `action_idx = None`
succeeds with `el_power = 0` and a leakage-only charge update. The source
does set `power = 0` and apply the leakage-only update, but its return
statement evaluates `self.actions[action_idx]` with `action_idx = None`,
which raises KeyError: on `batteryC3` (charge 18000000 Ws, relative loss
1/2) the call returns no interaction, and the leakage update to the charge
(18000000·(3/4)/(5/4) = 10800000 Ws) has already been committed. -/
theorem battery_idle_transition_raises :
    (batteryC3.state_transition 3600 none).2 = none ∧
    batteryC3.charge = 18000000 ∧
    (batteryC3.state_transition 3600 none).1.charge = 10800000 ∧
    (batteryC3.state_transition 3600 none).1.charge =
      (batteryC3.charge * (1 - batteryC3.relative_loss_per_tick / 2) -
        batteryC3.absolute_loss_per_tick) / (1 + batteryC3.relative_loss_per_tick / 2) := by
  norm_num [batteryC3, Battery.init, BatteryState.state_transition]

/-- C4. On the scenario plant, switching from idle to full for a 5 s tick
returns thermal power 2.5 kW (trapezoidal average, as the claim states) but
electrical power 5 kW, not the claimed 2.5 kW: the source overwrites the
electrical trapezoidal total energy with `delta_time * self.el_power`
after the ramp, so only the end-of-tick electrical power survives. -/
theorem chp_ramp_scenario_averages :
    (chpC4.state_transition 5 1).2 = some { el_power := 5, th_power := 5 / 2 } ∧
    (chpC4.state_transition 5 1).1.el_power = 5 ∧
    (chpC4.state_transition 5 1).1.th_power = 5 := by
  norm_num [chpC4, chpC4actions, CHPState.state_transition, dictLookup]

/-- C8. The scenario battery (capacity 10 kWh = 36000000 Ws, charge 5 kWh,
granularity 1) has the idle action at idx 1 and the −5 kW / +5 kW actions
at idxs 0 / 2; all three are feasible for a 3600 s tick, and performing the
+5 kW action for 3600 s raises the charge to exactly the capacity. -/
theorem battery_scenario_full_charge :
    (batteryC8.actions.getD 1 default).el_power = 0 ∧
    (batteryC8.actions.getD 0 default).el_power = -5 ∧
    (batteryC8.actions.getD 2 default).el_power = 5 ∧
    1 ∈ batteryC8.get_feasible_action_idxs 3600 ∧
    0 ∈ batteryC8.get_feasible_action_idxs 3600 ∧
    2 ∈ batteryC8.get_feasible_action_idxs 3600 ∧
    (batteryC8.state_transition 3600 (some 2)).1.charge = batteryC8.capacity ∧
    batteryC8.capacity = 36000000 := by
  norm_num [batteryC8, Battery.init, batteryActionCatalog, pyRound_neg_five, pyRound_five,
    BatteryState.get_feasible_action_idxs, BatteryState.state_transition,
    BatteryState.lookupAction, List.range_succ, (show Int.toNat 2 = 2 from rfl)]

/-- C9. The claim states that `i * k` produces a scaled copy and leaves `i`
unchanged. The source's `__mul__` (and `__rmul__`, an alias of it) scales
`self` in place and returns `None`: on the interaction (2 kW, 3 kW) with
factor 5 the object itself becomes (10 kW, 15 kW) and the value of the
multiplication expression is `None` — no copy is produced. -/
theorem interaction_mul_mutates_in_place :
    SystemEnvironmentInteraction.mul { el_power := 2, th_power := 3 } 5 =
      ({ el_power := 10, th_power := 15 }, none) ∧
    SystemEnvironmentInteraction.rmul { el_power := 2, th_power := 3 } 5 =
      ({ el_power := 10, th_power := 15 }, none) ∧
    ({ el_power := 10, th_power := 15 } : SystemEnvironmentInteraction) ≠
      { el_power := 2, th_power := 3 } := by
  refine ⟨?_, ?_, ?_⟩ <;>
    simp [SystemEnvironmentInteraction.mul, SystemEnvironmentInteraction.rmul,
      SystemEnvironmentInteraction.mk.injEq] <;> norm_num

/-- C5. For every battery state (efficiencies in (0,1], relative loss in
[0,1)) and positive tick, the feasible idx list is sorted in ascending
order and contains exactly the catalog positions whose action power in W
lies inclusively between
`(0 − charge·(1−r/2) + a)·η_discharge/Δt` and
`(capacity·(1+r/2) − charge·(1−r/2) + a)/η_charge/Δt`. -/
theorem battery_feasible_band (s : BatteryState) (delta_time : ℚ)
    (hdt : 0 < delta_time)
    (hc0 : 0 < s.charging_efficiency) (hc1 : s.charging_efficiency ≤ 1)
    (hd0 : 0 < s.discharging_efficiency) (hd1 : s.discharging_efficiency ≤ 1)
    (hr0 : 0 ≤ s.relative_loss_per_tick) (hr1 : s.relative_loss_per_tick < 1) :
    (s.get_feasible_action_idxs delta_time).Sorted (· < ·) ∧
    ∀ i : ℕ, i ∈ s.get_feasible_action_idxs delta_time ↔
      i < s.actions.length ∧
      (0 - s.charge * (1 - s.relative_loss_per_tick / 2) + s.absolute_loss_per_tick) *
          s.discharging_efficiency / delta_time ≤ (s.actions.getD i default).el_power * 1000 ∧
      (s.actions.getD i default).el_power * 1000 ≤
        (s.capacity * (1 + s.relative_loss_per_tick / 2) -
          s.charge * (1 - s.relative_loss_per_tick / 2) + s.absolute_loss_per_tick) /
          s.charging_efficiency / delta_time := by
  constructor
  · exact (List.pairwise_lt_range _).sublist (List.filter_sublist _)
  · intro i
    simp only [BatteryState.get_feasible_action_idxs, List.mem_filter, List.mem_range,
      decide_eq_true_eq]
    tauto

/-- C5 witness: the band characterization instantiated at the scenario
battery and a one-hour tick. -/
theorem battery_feasible_band_witness :
    (batteryC8.get_feasible_action_idxs 3600).Sorted (· < ·) ∧
    ∀ i : ℕ, i ∈ batteryC8.get_feasible_action_idxs 3600 ↔
      i < batteryC8.actions.length ∧
      (0 - batteryC8.charge * (1 - batteryC8.relative_loss_per_tick / 2) +
          batteryC8.absolute_loss_per_tick) * batteryC8.discharging_efficiency / 3600 ≤
        (batteryC8.actions.getD i default).el_power * 1000 ∧
      (batteryC8.actions.getD i default).el_power * 1000 ≤
        (batteryC8.capacity * (1 + batteryC8.relative_loss_per_tick / 2) -
          batteryC8.charge * (1 - batteryC8.relative_loss_per_tick / 2) +
          batteryC8.absolute_loss_per_tick) / batteryC8.charging_efficiency / 3600 :=
  battery_feasible_band batteryC8 3600 (by norm_num)
    (by norm_num [batteryC8, Battery.init]) (by norm_num [batteryC8, Battery.init])
    (by norm_num [batteryC8, Battery.init]) (by norm_num [batteryC8, Battery.init])
    (by norm_num [batteryC8, Battery.init]) (by norm_num [batteryC8, Battery.init])

/-- A chain of guard conditionals returning `false` evaluates to `true`
exactly when every guard fails and the final test holds. -/
theorem ite_false_chain {c1 c2 c3 : Prop} [Decidable c1] [Decidable c2] [Decidable c3]
    {d : Bool} :
    ((if c1 then false else if c2 then false else if c3 then false else d) = true) ↔
      ¬c1 ∧ ¬c2 ∧ ¬c3 ∧ d = true := by
  split_ifs <;> simp [*]

/-- A heat storage of capacity 1 kWh (3600000 Ws), charge 0.5 kWh, both
efficiencies 1, no losses. -/
def hsStore : HeatStorageState := HeatStorage.init 1 (1/2) 1 1 0 0

/-- C7 counterexample. The claim states that every action with projected
`thermal_power ≤ 0` is dropped when the charge is at or below
`capacity*min_soc`. With the charge exactly at `capacity*min_soc` and an
action of thermal power 0 (inside the feasible band), the source keeps the
action: at equality only strictly negative thermal powers are dropped. -/
theorem filter_actions_keeps_zero_at_min_soc :
    hsStore.filter_actions (fun a => a.th_power) [(0, { idx := 0 })] 3600 (1/2) 1 =
      [(0, { idx := 0 })] ∧
    hsStore.charge = hsStore.capacity * (1/2) ∧
    ({ idx := 0 } : Action).th_power ≤ 0 := by
  norm_num [hsStore, HeatStorage.init, HeatStorageState.filter_actions]

/-- C7 amended. `filter_actions` returns exactly the candidate pairs that
survive, in order: below `capacity*min_soc` actions with projected thermal
power ≤ 0 are dropped, at exactly `capacity*min_soc` only strictly
discharging actions (< 0) are dropped, at or above `capacity*max_soc`
actions with thermal power > 0 are dropped, and the projected power in W
must lie inclusively inside the storage's feasible band. The storage state
is only read (the function returns just the filtered mapping). -/
theorem filter_actions_characterization (s : HeatStorageState) (f : Action → ℚ)
    (action_map : List (ℤ × Action)) (delta_time min_soc max_soc : ℚ)
    (hdt : 0 < delta_time) (hsoc : min_soc ≤ max_soc) :
    ∀ p : ℤ × Action,
      p ∈ s.filter_actions f action_map delta_time min_soc max_soc ↔
        p ∈ action_map ∧
        ¬ (s.charge < s.capacity * min_soc ∧ f p.2 ≤ 0) ∧
        ¬ (s.charge = s.capacity * min_soc ∧ f p.2 < 0) ∧
        ¬ (s.charge ≥ s.capacity * max_soc ∧ f p.2 > 0) ∧
        (0 - s.charge * (1 - s.relative_loss_per_tick / 2) + s.absolute_loss_per_tick) *
            s.discharging_efficiency / delta_time ≤ f p.2 * 1000 ∧
        f p.2 * 1000 ≤ (s.capacity * (1 + s.relative_loss_per_tick / 2) -
            s.charge * (1 - s.relative_loss_per_tick / 2) + s.absolute_loss_per_tick) /
            s.charging_efficiency / delta_time := by
  intro p
  simp only [HeatStorageState.filter_actions, List.mem_filter, ite_false_chain,
    decide_eq_true_eq]
  tauto

/-- C7 witness: the characterization instantiated at the concrete storage,
candidate map and bounds of the counterexample scenario, evaluated at the
single candidate pair. -/
theorem filter_actions_characterization_witness :
    ((0 : ℤ), ({ idx := 0 } : Action)) ∈
        hsStore.filter_actions (fun a => a.th_power) [(0, { idx := 0 })] 3600 (1/2) 1 ↔
      ((0 : ℤ), ({ idx := 0 } : Action)) ∈ [((0 : ℤ), ({ idx := 0 } : Action))] ∧
      ¬ (hsStore.charge < hsStore.capacity * (1/2) ∧ ({ idx := 0 } : Action).th_power ≤ 0) ∧
      ¬ (hsStore.charge = hsStore.capacity * (1/2) ∧ ({ idx := 0 } : Action).th_power < 0) ∧
      ¬ (hsStore.charge ≥ hsStore.capacity * 1 ∧ ({ idx := 0 } : Action).th_power > 0) ∧
      (0 - hsStore.charge * (1 - hsStore.relative_loss_per_tick / 2) +
          hsStore.absolute_loss_per_tick) * hsStore.discharging_efficiency / 3600 ≤
        ({ idx := 0 } : Action).th_power * 1000 ∧
      ({ idx := 0 } : Action).th_power * 1000 ≤
        (hsStore.capacity * (1 + hsStore.relative_loss_per_tick / 2) -
          hsStore.charge * (1 - hsStore.relative_loss_per_tick / 2) +
          hsStore.absolute_loss_per_tick) / hsStore.charging_efficiency / 3600 :=
  filter_actions_characterization hsStore (fun a => a.th_power) [(0, { idx := 0 })] 3600
    (1/2) 1 (by norm_num) (by norm_num) ((0 : ℤ), ({ idx := 0 } : Action))

/-- C6. For a positive tick, with `energy` the requested energy (negative
of the supplied thermal power times the tick, in Ws) and
`max_energy`/`min_energy` the tick's storable/extractable bounds:
a charging request beyond `max_energy` (resp. a discharging request beyond
`min_energy`) is answered with thermal power `-(energy - bound)/1000/Δt`,
whose magnitude times `1000·Δt` is exactly the unsatisfied remainder and
whose sign is the original one; a request within the bounds (or zero) is
answered with thermal power 0; and in every case the clipped energy
(`min energy max_energy`, `max energy min_energy`, or 0) is applied to the
charge through the symmetric-loss update. -/
theorem heat_storage_clipping (s : HeatStorageState) (delta_time : ℚ)
    (ei : SystemEnvironmentInteraction) (hdt : 0 < delta_time)
    (energy max_energy min_energy : ℚ)
    (he : energy = -ei.th_power * delta_time * 1000)
    (hmax : max_energy = (s.capacity * (1 + s.relative_loss_per_tick / 2) -
        s.charge * (1 - s.relative_loss_per_tick / 2) + s.absolute_loss_per_tick) /
        s.charging_efficiency)
    (hmin : min_energy = (0 - s.charge * (1 - s.relative_loss_per_tick / 2) +
        s.absolute_loss_per_tick) * s.discharging_efficiency) :
    (0 < energy → max_energy < energy →
      (s.state_transition delta_time ei).2.th_power =
          -(energy - max_energy) / 1000 / delta_time ∧
        |(s.state_transition delta_time ei).2.th_power| * 1000 * delta_time =
          energy - max_energy) ∧
    (energy < 0 → energy < min_energy →
      (s.state_transition delta_time ei).2.th_power =
          -(energy - min_energy) / 1000 / delta_time ∧
        |(s.state_transition delta_time ei).2.th_power| * 1000 * delta_time =
          min_energy - energy) ∧
    (0 < energy → energy ≤ max_energy →
      (s.state_transition delta_time ei).2.th_power = 0) ∧
    (energy < 0 → min_energy ≤ energy →
      (s.state_transition delta_time ei).2.th_power = 0) ∧
    (energy = 0 → (s.state_transition delta_time ei).2.th_power = 0) ∧
    (0 < energy → (s.state_transition delta_time ei).1.charge =
      (heatStorageDeltaC s (min energy max_energy) +
        s.charge * (1 - s.relative_loss_per_tick / 2) - s.absolute_loss_per_tick) /
        (1 + s.relative_loss_per_tick / 2)) ∧
    (energy < 0 → (s.state_transition delta_time ei).1.charge =
      (heatStorageDeltaC s (max energy min_energy) +
        s.charge * (1 - s.relative_loss_per_tick / 2) - s.absolute_loss_per_tick) /
        (1 + s.relative_loss_per_tick / 2)) ∧
    (energy = 0 → (s.state_transition delta_time ei).1.charge =
      (heatStorageDeltaC s 0 + s.charge * (1 - s.relative_loss_per_tick / 2) -
        s.absolute_loss_per_tick) / (1 + s.relative_loss_per_tick / 2)) := by
  subst he hmax hmin
  refine ⟨?_, ?_, ?_, ?_, ?_, ?_, ?_, ?_⟩
  · intro h1 h2
    simp only [HeatStorageState.state_transition]
    rw [if_pos h1, max_eq_right (le_of_lt (by linarith))]
    refine ⟨rfl, ?_⟩
    have hdt' : (0 : ℚ) < 1000 * delta_time := by linarith
    rw [div_div, abs_div, abs_neg, abs_of_pos (by linarith), abs_of_pos hdt']
    have hdt0 : delta_time ≠ 0 := ne_of_gt hdt
    field_simp
    ring
  · intro h1 h2
    simp only [HeatStorageState.state_transition]
    rw [if_neg (by push_neg; linarith), if_pos h1, min_eq_right (le_of_lt (by linarith))]
    refine ⟨rfl, ?_⟩
    have hdt' : (0 : ℚ) < 1000 * delta_time := by linarith
    rw [div_div, abs_div, abs_neg, abs_of_neg (by linarith), abs_of_pos hdt']
    have hdt0 : delta_time ≠ 0 := ne_of_gt hdt
    field_simp
    ring
  · intro h1 h2
    simp only [HeatStorageState.state_transition]
    rw [if_pos h1, max_eq_left (by linarith)]
    norm_num
  · intro h1 h2
    simp only [HeatStorageState.state_transition]
    rw [if_neg (by push_neg; linarith), if_pos h1, min_eq_left (by linarith)]
    norm_num
  · intro h1
    simp only [HeatStorageState.state_transition]
    rw [if_neg (by push_neg; linarith), if_neg (by push_neg; linarith), h1]
    norm_num
  · intro h1
    simp only [HeatStorageState.state_transition]
    rw [if_pos h1]
    have flow_eq : ∀ energy max_energy : ℚ,
        energy - max 0 (energy - max_energy) = min energy max_energy := by
      intro x m
      rcases le_total x m with h | h
      · rw [max_eq_left (by linarith), min_eq_left h]; ring
      · rw [max_eq_right (by linarith), min_eq_right h]; ring
    rw [flow_eq]
  · intro h1
    simp only [HeatStorageState.state_transition]
    rw [if_neg (by push_neg; linarith), if_pos h1]
    have flow_eq : ∀ energy min_energy : ℚ,
        energy - min 0 (energy - min_energy) = max energy min_energy := by
      intro x m
      rcases le_total x m with h | h
      · rw [min_eq_right (by linarith), max_eq_right h]; ring
      · rw [min_eq_left (by linarith), max_eq_left h]; ring
    rw [flow_eq]
  · intro h1
    simp only [HeatStorageState.state_transition]
    rw [if_neg (by push_neg; linarith), if_neg (by push_neg; linarith)]

/-- C6 witness: the clipping theorem instantiated at the concrete storage
(capacity 3600000 Ws, charge 1800000 Ws, no losses, efficiencies 1), a one
hour tick and an offered thermal power of 2 kW, i.e. a requested energy of
7200000 Ws against bounds 1800000 / −1800000 Ws. -/
theorem heat_storage_clipping_witness :
    ((0 : ℚ) < 7200000 → (1800000 : ℚ) < 7200000 →
      (hsStore.state_transition 3600 { el_power := 0, th_power := -2 }).2.th_power =
          -((7200000 : ℚ) - 1800000) / 1000 / 3600 ∧
        |(hsStore.state_transition 3600 { el_power := 0, th_power := -2 }).2.th_power| *
            1000 * 3600 = (7200000 : ℚ) - 1800000) ∧
    ((7200000 : ℚ) < 0 → (7200000 : ℚ) < -1800000 →
      (hsStore.state_transition 3600 { el_power := 0, th_power := -2 }).2.th_power =
          -((7200000 : ℚ) - -1800000) / 1000 / 3600 ∧
        |(hsStore.state_transition 3600 { el_power := 0, th_power := -2 }).2.th_power| *
            1000 * 3600 = (-1800000 : ℚ) - 7200000) ∧
    ((0 : ℚ) < 7200000 → (7200000 : ℚ) ≤ 1800000 →
      (hsStore.state_transition 3600 { el_power := 0, th_power := -2 }).2.th_power = 0) ∧
    ((7200000 : ℚ) < 0 → (-1800000 : ℚ) ≤ 7200000 →
      (hsStore.state_transition 3600 { el_power := 0, th_power := -2 }).2.th_power = 0) ∧
    ((7200000 : ℚ) = 0 →
      (hsStore.state_transition 3600 { el_power := 0, th_power := -2 }).2.th_power = 0) ∧
    ((0 : ℚ) < 7200000 →
      (hsStore.state_transition 3600 { el_power := 0, th_power := -2 }).1.charge =
        (heatStorageDeltaC hsStore (min (7200000 : ℚ) 1800000) +
          hsStore.charge * (1 - hsStore.relative_loss_per_tick / 2) -
          hsStore.absolute_loss_per_tick) / (1 + hsStore.relative_loss_per_tick / 2)) ∧
    ((7200000 : ℚ) < 0 →
      (hsStore.state_transition 3600 { el_power := 0, th_power := -2 }).1.charge =
        (heatStorageDeltaC hsStore (max (7200000 : ℚ) (-1800000)) +
          hsStore.charge * (1 - hsStore.relative_loss_per_tick / 2) -
          hsStore.absolute_loss_per_tick) / (1 + hsStore.relative_loss_per_tick / 2)) ∧
    ((7200000 : ℚ) = 0 →
      (hsStore.state_transition 3600 { el_power := 0, th_power := -2 }).1.charge =
        (heatStorageDeltaC hsStore 0 +
          hsStore.charge * (1 - hsStore.relative_loss_per_tick / 2) -
          hsStore.absolute_loss_per_tick) / (1 + hsStore.relative_loss_per_tick / 2)) :=
  heat_storage_clipping hsStore 3600 { el_power := 0, th_power := -2 } (by norm_num)
    7200000 1800000 (-1800000) (by norm_num)
    (by norm_num [hsStore, HeatStorage.init]) (by norm_num [hsStore, HeatStorage.init])

/-! ## CHP ramping invariants -/

/-- `n` repeated CHP ticks with a fixed action idx and tick length. -/
def chpIterate (dt : ℚ) (i : ℤ) : ℕ → CHPState → CHPState
  | 0, c => c
  | n + 1, c => ((chpIterate dt i n c).state_transition dt i).1

/-- A CHP tick never modifies the action dictionary. -/
theorem chp_transition_preserves_actions (c : CHPState) (dt : ℚ) (i : ℤ) :
    ((c.state_transition dt i).1).actions = c.actions := by
  by_cases h : i = c.mode
  · subst h
    rcases hl : dictLookup c.actions c.mode with _ | a <;>
      simp [CHPState.state_transition, hl]
  · rcases hl : dictLookup c.actions i with _ | a <;>
      simp [CHPState.state_transition, h, hl]

/-- The electrical power stored by a CHP tick with a registered action:
the ramp formula of the source, expressed over the pre-call state (the mode
update changes neither the stored powers nor the rates). -/
theorem chp_transition_el_power (c : CHPState) (dt : ℚ) (i : ℤ) (a : CHPAction)
    (ha : dictLookup c.actions i = some a) :
    ((c.state_transition dt i).1).el_power =
      (if a.el_power - c.el_power < 0 then
        max a.el_power (c.el_power + c.el_ramp_up_rate * dt)
      else if 0 < a.el_power - c.el_power then
        min a.el_power (c.el_power + c.el_ramp_down_rate * dt)
      else c.el_power) := by
  by_cases h : i = c.mode
  · subst h; simp [CHPState.state_transition, ha]
  · simp [CHPState.state_transition, h, ha]

/-- Thermal analogue of the previous lemma. -/
theorem chp_transition_th_power (c : CHPState) (dt : ℚ) (i : ℤ) (a : CHPAction)
    (ha : dictLookup c.actions i = some a) :
    ((c.state_transition dt i).1).th_power =
      (if a.th_power - c.th_power < 0 then
        max a.th_power (c.th_power + c.th_ramp_up_rate * dt)
      else if 0 < a.th_power - c.th_power then
        min a.th_power (c.th_power + c.th_ramp_down_rate * dt)
      else c.th_power) := by
  by_cases h : i = c.mode
  · subst h; simp [CHPState.state_transition, ha]
  · simp [CHPState.state_transition, h, ha]

/-- The one-tick ramp value stays between the current power and the
target, given a negative stored ramp-up rate, a positive ramp-down rate
and a positive tick. -/
theorem ramp_step_between (cur target up dn dt : ℚ) (hup : up < 0) (hdn : 0 < dn)
    (hdt : 0 < dt) :
    min cur target ≤
        (if target - cur < 0 then max target (cur + up * dt)
         else if 0 < target - cur then min target (cur + dn * dt) else cur) ∧
      (if target - cur < 0 then max target (cur + up * dt)
       else if 0 < target - cur then min target (cur + dn * dt) else cur) ≤
        max cur target := by
  have hu : up * dt < 0 := mul_neg_of_neg_of_pos hup hdt
  have hd : 0 < dn * dt := mul_pos hdn hdt
  split_ifs with h1 h2
  · exact ⟨le_trans (min_le_right _ _) (le_max_left _ _),
      max_le (le_trans (by linarith) (le_max_left _ _))
        (le_trans (by linarith) (le_max_left _ _))⟩
  · exact ⟨le_trans (min_le_left _ _) (le_min (by linarith) (by linarith)),
      le_trans (min_le_left _ _) (le_max_right _ _)⟩
  · exact ⟨min_le_left _ _, le_max_left _ _⟩

/-- Once the stored electrical power equals the nominal power of the
(always registered) chosen action, it is preserved by every further tick
with that action idx, and the dictionary is preserved as well. -/
theorem chp_iterate_fixed_el (c : CHPState) (dt : ℚ) (i : ℤ) (a : CHPAction)
    (ha : dictLookup c.actions i = some a) (hfix : c.el_power = a.el_power) :
    ∀ n : ℕ, (chpIterate dt i n c).el_power = a.el_power ∧
      (chpIterate dt i n c).actions = c.actions := by
  intro n
  induction n with
  | zero => exact ⟨hfix, rfl⟩
  | succ n ih =>
    have ha' : dictLookup (chpIterate dt i n c).actions i = some a := by
      rw [ih.2]; exact ha
    constructor
    · show (((chpIterate dt i n c).state_transition dt i).1).el_power = a.el_power
      rw [chp_transition_el_power _ dt i a ha', ih.1]
      simp
    · show (((chpIterate dt i n c).state_transition dt i).1).actions = c.actions
      rw [chp_transition_preserves_actions, ih.2]

/-- Thermal analogue of the previous lemma. -/
theorem chp_iterate_fixed_th (c : CHPState) (dt : ℚ) (i : ℤ) (a : CHPAction)
    (ha : dictLookup c.actions i = some a) (hfix : c.th_power = a.th_power) :
    ∀ n : ℕ, (chpIterate dt i n c).th_power = a.th_power ∧
      (chpIterate dt i n c).actions = c.actions := by
  intro n
  induction n with
  | zero => exact ⟨hfix, rfl⟩
  | succ n ih =>
    have ha' : dictLookup (chpIterate dt i n c).actions i = some a := by
      rw [ih.2]; exact ha
    constructor
    · show (((chpIterate dt i n c).state_transition dt i).1).th_power = a.th_power
      rw [chp_transition_th_power _ dt i a ha', ih.1]
      simp
    · show (((chpIterate dt i n c).state_transition dt i).1).actions = c.actions
      rw [chp_transition_preserves_actions, ih.2]

/-- C10. For a positive tick, a registered action idx and the rate signs
installed by the constructor (ramp-up rates stored negative, ramp-down
rates positive), the stored actual electrical and thermal powers after
`state_transition` lie inclusively between their pre-call values and the
selected action's nominal powers; and once a stored power equals the
nominal power it stays exactly equal under arbitrarily many repeated
transitions with the same action idx. -/
theorem chp_no_overshoot (c : CHPState) (dt : ℚ) (i : ℤ) (a : CHPAction)
    (hdt : 0 < dt)
    (heu : c.el_ramp_up_rate < 0) (hed : 0 < c.el_ramp_down_rate)
    (htu : c.th_ramp_up_rate < 0) (htd : 0 < c.th_ramp_down_rate)
    (ha : dictLookup c.actions i = some a) :
    (min c.el_power a.el_power ≤ ((c.state_transition dt i).1).el_power ∧
      ((c.state_transition dt i).1).el_power ≤ max c.el_power a.el_power) ∧
    (min c.th_power a.th_power ≤ ((c.state_transition dt i).1).th_power ∧
      ((c.state_transition dt i).1).th_power ≤ max c.th_power a.th_power) ∧
    (c.el_power = a.el_power →
      ∀ n : ℕ, (chpIterate dt i n c).el_power = a.el_power) ∧
    (c.th_power = a.th_power →
      ∀ n : ℕ, (chpIterate dt i n c).th_power = a.th_power) := by
  refine ⟨?_, ?_, ?_, ?_⟩
  · rw [chp_transition_el_power c dt i a ha]
    exact ramp_step_between c.el_power a.el_power c.el_ramp_up_rate c.el_ramp_down_rate dt
      heu hed hdt
  · rw [chp_transition_th_power c dt i a ha]
    exact ramp_step_between c.th_power a.th_power c.th_ramp_up_rate c.th_ramp_down_rate dt
      htu htd hdt
  · intro hfix n
    exact (chp_iterate_fixed_el c dt i a ha hfix n).1
  · intro hfix n
    exact (chp_iterate_fixed_th c dt i a ha hfix n).1

/-- C10 witness: the invariant instantiated at the scenario plant,
`delta_time = 5` and the full-power mode. -/
theorem chp_no_overshoot_witness :
    (min chpC4.el_power (10 : ℚ) ≤ ((chpC4.state_transition 5 1).1).el_power ∧
      ((chpC4.state_transition 5 1).1).el_power ≤ max chpC4.el_power 10) ∧
    (min chpC4.th_power (20 : ℚ) ≤ ((chpC4.state_transition 5 1).1).th_power ∧
      ((chpC4.state_transition 5 1).1).th_power ≤ max chpC4.th_power 20) ∧
    (chpC4.el_power = (10 : ℚ) →
      ∀ n : ℕ, (chpIterate 5 1 n chpC4).el_power = 10) ∧
    (chpC4.th_power = (20 : ℚ) →
      ∀ n : ℕ, (chpIterate 5 1 n chpC4).th_power = 20) :=
  chp_no_overshoot chpC4 5 1
    { el_power := 10, th_power := 20, min_staying_time := 600, max_staying_time := 10 ^ 9 }
    (by norm_num)
    (by norm_num [chpC4]) (by norm_num [chpC4]) (by norm_num [chpC4]) (by norm_num [chpC4])
    (by norm_num [chpC4, chpC4actions, dictLookup])

end LoadProfileSim
